import Mathlib

/-!
Shallow embedding of the restocker backend's core logic: the JSON-like value
space produced by JSON.parse together with the JavaScript truthiness and
numeric-coercion rules the handlers rely on, the product-catalog and
stock-ledger route handlers of src/index.js, the mongoose schema constraints
of src/model (the product measure enum and the stock expiry-date cast), and
the /chat/ai decode-tier chain and intent dispatch.  Quantities are modelled
as rationals (JavaScript numbers, away from overflow/rounding corners),
document identifiers as naturals, and the external JSON parser as an
abstract function parameter.
-/

/-- JSON-like values as produced by JSON.parse.  Numbers are modelled as
rationals; a missing object field reads as null (JavaScript undefined and
null are both falsy and are not distinguished by the code paths modelled
here). -/
inductive JVal where
  | null
  | bool (b : Bool)
  | num (q : ℚ)
  | str (s : String)
  | arr (elems : List JVal)
  | obj (fields : List (String × JVal))

/-- First binding of a key in a JSON object's field list. -/
def lookupField : List (String × JVal) → String → Option JVal
  | [], _ => none
  | (k, v) :: fs, key => if k = key then some v else lookupField fs key

/-- JavaScript property access `v[key]`, with absent fields (and access on
non-objects) reading as null. -/
def getField (v : JVal) (key : String) : JVal :=
  match v with
  | .obj fs => (lookupField fs key).getD .null
  | _ => .null

/-- JavaScript truthiness: null/undefined, false, 0 and the empty string are
falsy; arrays and objects (even empty) are truthy. -/
def jsTruthy : JVal → Bool
  | .null => false
  | .bool b => b
  | .num q => if q = 0 then false else true
  | .str s => !s.isEmpty
  | .arr _ => true
  | .obj _ => true

/-- Numeric value of a digit run (most significant first). -/
def natOfDigits (cs : List Char) : Nat :=
  cs.foldl (fun a c => 10 * a + (c.toNat - 48)) 0

/-- Decimal body of JavaScript Number(string) coercion: digits with an
optional fractional part (exponent and hexadecimal forms are not reached by
the inputs modelled here). -/
def strToNumCore (cs : List Char) : Option ℚ :=
  let ip := cs.takeWhile Char.isDigit
  let r1 := cs.dropWhile Char.isDigit
  match r1 with
  | [] => if ip.isEmpty then none else some (natOfDigits ip)
  | c :: fr =>
    if c = '.' ∧ fr.all Char.isDigit ∧ ¬(ip.isEmpty ∧ fr.isEmpty) then
      some ((natOfDigits ip : ℚ) + (natOfDigits fr : ℚ) / ((10 : ℚ) ^ fr.length))
    else none

/-- Whitespace stripped by JavaScript string-to-number coercion. -/
def jsWhitespace (c : Char) : Bool :=
  c == ' ' || c == '\t' || c == '\n' || c == '\r'

/-- Drop leading and trailing whitespace from a character list. -/
def trimChars (cs : List Char) : List Char :=
  ((cs.dropWhile jsWhitespace).reverse.dropWhile jsWhitespace).reverse

/-- JavaScript Number(string): trimmed empty string is 0, otherwise an
optionally signed decimal literal; anything else is NaN (none). -/
def strToNum (s : String) : Option ℚ :=
  match trimChars s.data with
  | [] => some 0
  | '-' :: rest => (strToNumCore rest).map (fun q => -q)
  | '+' :: rest => strToNumCore rest
  | cs => strToNumCore cs

/-- JavaScript ToNumber on a JSON value: none models NaN. -/
def toNum : JVal → Option ℚ
  | .num q => some q
  | .str s => strToNum s
  | .bool b => some (if b then 1 else 0)
  | .null => some 0
  | .arr [] => some 0
  | .arr [v] => toNum v
  | .arr (_ :: _ :: _) => none
  | .obj _ => none

/-- The isNaN test the handlers apply to quantities. -/
def jsNaN (v : JVal) : Bool :=
  (toNum v).isNone

/-- The `v <= 0` comparison the handlers apply to quantities (false when the
coercion yields NaN, as in JavaScript). -/
def jsLeZero (v : JVal) : Bool :=
  match toNum v with
  | some q => decide (q ≤ 0)
  | none => false

/-- Measure whitelist used by the route-level validation in index.js (both
the POST /:id/product/add handler and the /chat/ai add_product branches). -/
def validMeasures : List String :=
  ["kg", "g", "l", "ml", "liter", "Liter", "pcs", "box", "bag", "bottle",
   "can", "pack", "piece", "other"]

/-- Measure enumeration of the mongoose product schema (proSchema in
src/model), enforced when a product document is created or saved. -/
def schemaMeasures : List String :=
  ["kg", "g", "l", "ml", "pcs", "box", "bag", "bottle", "can", "pack",
   "piece", "other"]

/-- The `validMeasures.includes(measure)` test: strict string comparison, so
only string values can match. -/
def routeMeasureOk (v : JVal) : Bool :=
  match v with
  | .str s => validMeasures.contains s
  | _ => false

/-- Whether the mongoose schema accepts a product entry's measure value:
the stored value must be a string inside the schema enumeration. -/
def schemaMeasureOk (v : JVal) : Bool :=
  match v with
  | .str s => schemaMeasures.contains s
  | _ => false

/-- The route's expiry-date pattern test, the regex of four digits, a dash,
two digits, a dash and two digits anchored on both sides. -/
def datePatChars : List Char → Bool
  | [y1, y2, y3, y4, h1, m1, m2, h2, d1, d2] =>
    y1.isDigit && y2.isDigit && y3.isDigit && y4.isDigit && h1 == '-' &&
    m1.isDigit && m2.isDigit && h2 == '-' && d1.isDigit && d2.isDigit
  | _ => false

/-- Regex test against a request value: JavaScript stringifies the operand,
and only string operands can produce the dashed ten-character shape. -/
def dateFormatTest (v : JVal) : Bool :=
  match v with
  | .str s => datePatChars s.data
  | _ => false

/-- Gregorian leap-year rule, as used by the JavaScript Date range check. -/
def isLeapYear (y : Nat) : Bool :=
  (y % 4 == 0 && y % 100 != 0) || y % 400 == 0

/-- Length of a month, with month numbered from 1. -/
def daysInMonth (y m : Nat) : Nat :=
  if m == 2 then (if isLeapYear y then 29 else 28)
  else if m == 4 || m == 6 || m == 9 || m == 11 then 30
  else 31

/-- Whether a string in the dashed ten-character shape denotes an existing
calendar date; this is the range check JavaScript Date (and hence the
mongoose Date cast) applies to date-only ISO strings, so a pattern-valid but
calendar-invalid string fails the cast at save time. -/
def isValidYMD (s : String) : Bool :=
  match s.data with
  | [y1, y2, y3, y4, h1, m1, m2, h2, d1, d2] =>
    let y := natOfDigits [y1, y2, y3, y4]
    let m := natOfDigits [m1, m2]
    let d := natOfDigits [d1, d2]
    h1 == '-' && h2 == '-' &&
    [y1, y2, y3, y4, m1, m2, d1, d2].all Char.isDigit &&
    1 ≤ m && m ≤ 12 && 1 ≤ d && d ≤ daysInMonth y m
  | _ => false

/-- Usage event pushed onto a lot's entry log by the consume handler:
the consumed quantity and the timestamp recorded at consumption time. -/
structure UsageEvent where
  usedQty : ℚ
  time : Nat
  deriving Repr, DecidableEq

/-- One stock lot inside a ledger document's stockDetail array: subdocument
identifier, expiry date string, remaining quantity and the usage log. -/
structure StockItem where
  id : Nat
  expiryDate : String
  qty : ℚ
  entry : List UsageEvent
  deriving Repr, DecidableEq

/-- Quantity the lot was originally added with, reconstructed from the
current quantity plus everything its usage log says was consumed. -/
def origQty (it : StockItem) : ℚ :=
  it.qty + (it.entry.map UsageEvent.usedQty).sum

/-- The in-array find by subdocument id used by the consume handler
(first match wins, as with Array.prototype.find). -/
def findLot : List StockItem → Nat → Option StockItem
  | [], _ => none
  | x :: xs, sid => if x.id = sid then some x else findLot xs sid

/-- In-place mutation of the first lot matching the id, as performed through
the reference returned by Array.prototype.find. -/
def updateFirst : List StockItem → Nat → (StockItem → StockItem) → List StockItem
  | [], _, _ => []
  | x :: xs, sid, f => if x.id = sid then f x :: xs else x :: updateFirst xs sid f

/-- Outcome of POST /:id/product/:productId/stock/add. -/
inductive AddOutcome where
  | createdOk
  | updatedOk
  | requiredErr
  | qtyErr
  | dateFormatErr
  | storageErr
  deriving Repr, DecidableEq

/-- HTTP status attached to each add-stock outcome. -/
def addStatus : AddOutcome → Nat
  | .createdOk => 201
  | .updatedOk => 200
  | .requiredErr => 400
  | .qtyErr => 400
  | .dateFormatErr => 400
  | .storageErr => 500

/-- The add-stock handler: requires truthy expiryDate and qty, a numeric
positive qty and the dashed date shape, then creates the ledger document
with one lot or appends a lot to the existing one.  The mongoose save casts
the expiry string to a Date, so a pattern-valid but calendar-invalid string
makes the save throw and the handler answer with its catch-all failure. -/
def stockAdd (ledger : Option (List StockItem)) (expiryDate qty : JVal)
    (newId : Nat) : AddOutcome × Option (List StockItem) :=
  if ¬ (jsTruthy expiryDate && jsTruthy qty) then (.requiredErr, ledger)
  else if jsNaN qty || jsLeZero qty then (.qtyErr, ledger)
  else if ¬ dateFormatTest expiryDate then (.dateFormatErr, ledger)
  else
    match expiryDate, toNum qty with
    | .str s, some q =>
      if isValidYMD s then
        match ledger with
        | none => (.createdOk, some [⟨newId, s, q, []⟩])
        | some lots => (.updatedOk, some (lots ++ [⟨newId, s, q, []⟩]))
      else (.storageErr, ledger)
    | _, _ => (.storageErr, ledger)

/-- Outcome of POST /:id/product/:productId/stock/use. -/
inductive UseOutcome where
  | ok
  | requiredErr
  | notPositiveErr
  | notFound
  | insufficient
  deriving Repr, DecidableEq

/-- HTTP status attached to each consume outcome: the insufficient-stock
answer is the 400 "Used quantity exceeds available stock". -/
def useStatus : UseOutcome → Nat
  | .ok => 200
  | .requiredErr => 400
  | .notPositiveErr => 400
  | .notFound => 404
  | .insufficient => 400

/-- The consume handler: requires a truthy positive usedQty, locates the
ledger document holding a lot with the given subdocument id (404 when the
document or the lot is absent), rejects over-consumption with the
insufficient-stock 400 before touching anything, and otherwise decrements
the found lot's qty and pushes one usage event carrying the consumed
quantity and the current time. -/
def stockUse (ledger : Option (List StockItem)) (sid : Nat) (usedQty : ℚ)
    (now : Nat) : UseOutcome × Option (List StockItem) :=
  if usedQty = 0 then (.requiredErr, ledger)
  else if usedQty ≤ 0 then (.notPositiveErr, ledger)
  else
    match ledger with
    | none => (.notFound, ledger)
    | some lots =>
      match findLot lots sid with
      | none => (.notFound, ledger)
      | some lot =>
        if lot.qty < usedQty then (.insufficient, ledger)
        else
          (.ok, some (updateFirst lots sid (fun it =>
            { it with qty := it.qty - usedQty,
                      entry := it.entry ++ [⟨usedQty, now⟩] })))

/-- Read model of GET /:id/product/:productId/stock: the stockDetail array,
or the empty array when no ledger document exists. -/
def listLots (ledger : Option (List StockItem)) : List StockItem :=
  ledger.getD []

/-- Persistent state touched by the REST product/stock routes: the per-user
product document's allProducts array and the per-(user, product) stock
document's stockDetail array, each possibly not yet created. -/
structure RestState where
  catalog : Option (List JVal)
  ledger : Option (List StockItem)

/-- The add-stock route acting on the full per-user state: it reads and
writes only the stock document, leaving the product catalog alone. -/
def restStockAdd (st : RestState) (expiryDate qty : JVal) (newId : Nat) :
    AddOutcome × RestState :=
  let r := stockAdd st.ledger expiryDate qty newId
  (r.1, { st with ledger := r.2 })

/-- Outcome of POST /:id/product/add. -/
inductive ProdOutcome where
  | createdOk
  | updatedOk
  | requiredErr
  | invalidMeasureErr
  | saveErr
  deriving Repr, DecidableEq

/-- HTTP status attached to each add-product outcome; the saveErr case is
the catch-all 500 "Failed to add product". -/
def prodStatus : ProdOutcome → Nat
  | .createdOk => 201
  | .updatedOk => 200
  | .requiredErr => 400
  | .invalidMeasureErr => 400
  | .saveErr => 500

/-- Whether the mongoose product schema accepts every entry of an
allProducts array on save: each entry's measure must be a string inside the
schema enumeration (name and description, already truthy at this point, cast
fine). -/
def schemaSaveOk (entries : List JVal) : Bool :=
  entries.all (fun e => schemaMeasureOk (getField e "measure"))

/-- The add-product route: requires truthy name, description and measure,
checks the measure against the route whitelist, then creates the product
document or appends the entry; a measure outside the schema enumeration
makes the mongoose save throw, surfacing as the catch-all 500 with the
catalog unchanged. -/
def mkProductEntry (name description measure : JVal) : JVal :=
  .obj [("name", name), ("description", description), ("measure", measure)]

def productAdd (catalog : Option (List JVal)) (name description measure : JVal) :
    ProdOutcome × Option (List JVal) :=
  if ¬ (jsTruthy name && jsTruthy description && jsTruthy measure) then
    (.requiredErr, catalog)
  else if ¬ routeMeasureOk measure then (.invalidMeasureErr, catalog)
  else if schemaSaveOk [mkProductEntry name description measure] then
    match catalog with
    | none => (.createdOk, some [mkProductEntry name description measure])
    | some ps => (.updatedOk, some (ps ++ [mkProductEntry name description measure]))
  else (.saveErr, catalog)

/-- Fuel-driven scanner for global replacement of a literal non-empty
pattern, scanning left to right as String.prototype.replace with a global
regex does; every step consumes at least one character, so fuel equal to
the text length computes the whole replacement. -/
def replaceFuel : Nat → List Char → List Char → List Char → List Char
  | 0, cs, _, _ => cs
  | _ + 1, [], _, _ => []
  | n + 1, c :: cs, pat, rep =>
    if pat ≠ [] ∧ pat.isPrefixOf (c :: cs) then
      rep ++ replaceFuel n ((c :: cs).drop pat.length) pat rep
    else c :: replaceFuel n cs pat rep

/-- Global replacement of a literal pattern in a character list. -/
def replaceList (cs pat rep : List Char) : List Char :=
  replaceFuel cs.length cs pat rep

/-- String-level wrapper for the literal global replace. -/
def strReplace (s pat rep : String) : String :=
  ⟨replaceList s.data pat.data rep.data⟩

/-- String.prototype.trim. -/
def strTrim (s : String) : String :=
  ⟨trimChars s.data⟩

/-- The fence-stripping step applied to the raw model text: remove every
occurrence of the json code-fence opener and of bare fences, then trim. -/
def stripFences (s : String) : String :=
  strTrim (strReplace (strReplace s "```json" "") "```" "")

/-- The brace-substring extraction tier: the greedy regex match from the
first opening brace to the last closing brace, when one exists after it. -/
def braceExtract (s : String) : Option String :=
  let cs := s.data
  match cs.findIdx? (fun c => c == '{') with
  | none => none
  | some i =>
    match cs.reverse.findIdx? (fun c => c == '\x7d') with
    | none => none
    | some k =>
      let j := cs.length - 1 - k
      if i < j then some ⟨(cs.take (j + 1)).drop i⟩ else none

/-- Repair scanner for trailing commas: a comma followed only by whitespace
and a closing brace or bracket is dropped together with that whitespace.
The first argument holds the whitespace collected (reversed) after a
pending comma. -/
def stripTrailingCommas : Option (List Char) → List Char → List Char
  | none, [] => []
  | none, c :: cs =>
    if c == ',' then stripTrailingCommas (some []) cs
    else c :: stripTrailingCommas none cs
  | some ws, [] => ',' :: ws.reverse
  | some ws, c :: cs =>
    if c == '\x7d' || c == ']' then c :: stripTrailingCommas none cs
    else if jsWhitespace c then stripTrailingCommas (some (c :: ws)) cs
    else if c == ',' then ',' :: ws.reverse ++ stripTrailingCommas (some []) cs
    else ',' :: ws.reverse ++ (c :: stripTrailingCommas none cs)

/-- The light-repair tier: drop trailing commas before closing braces and
brackets, then turn single quotes into double quotes. -/
def cleanJson (s : String) : String :=
  ⟨(stripTrailingCommas none s.data).map
    (fun c => if c == '\x27' then '\x22' else c)⟩

/-- The escalating decode tiers applied to the stripped model text, with the
JSON parser itself abstract: parse as-is; on failure re-strip fences,
extract the brace-delimited substring and parse it; on failure parse its
repaired form.  none means every tier failed (including the no-brace-match
early exit). -/
def decodeTiers (parse : String → Option JVal) (aiText : String) : Option JVal :=
  match parse aiText with
  | some v => some v
  | none =>
    let jsonText := strReplace (strReplace aiText "```json" "") "```" ""
    match braceExtract jsonText with
    | none => none
    | some m =>
      match parse m with
      | some v => some v
      | none => parse (cleanJson m)

/-- Persistent state touched by the /chat/ai mutation branches: the raw
allProducts array of the user's product document and the raw stockDetail
array of the (user, product) stock document, each possibly absent. -/
structure CState where
  catalog : Option (List JVal)
  ledger : Option (List JVal)

/-- Response of the chat endpoint: HTTP status and the value bound to the
reply key of the JSON body. -/
structure ChatResp where
  status : Nat
  reply : JVal

/-- Fallback reply of the outer catch, answered with status 500 when the
external generation call throws. -/
def apologyMsg : String :=
  "Sorry, I encountered an error. Please try again later."

/-- Reply when the generation call yields no text at all. -/
def emptyGenMsg : String :=
  "I couldn't generate a response. Please try again."

/-- Reply when every decode tier fails or no brace-delimited substring
exists in the text. -/
def troubleMsg : String :=
  "I had trouble understanding your request. Please try rephrasing it or be more specific about what you want to add."

/-- Reply when the decoded value is not a truthy object with a truthy intent
field. -/
def processMsg : String :=
  "I had trouble processing your request. Please try rephrasing it."

/-- Reply of the final dispatch fallthrough. -/
def notUnderstoodMsg : String :=
  "I didn't understand your request."

/-- Reply redirecting add_stock requests made without a product context. -/
def openProductMsg : String :=
  "Please open the product page to add stock."

/-- Reply when the add_stock data payload is not an array. -/
def stockFormatMsg : String :=
  "Invalid stock data format."

/-- Reply when the add_product data payload is not an array. -/
def productFormatMsg : String :=
  "Invalid product data format."

/-- Reply identifying an invalid stock entry by its 1-based position. -/
def stockInvalidMsg (i : Nat) : String :=
  "Stock entry " ++ toString (i + 1) ++ " is invalid. Please provide valid expiry date and quantity."

/-- Reply identifying a product entry with missing fields by its 1-based
position. -/
def prodMissingMsg (i : Nat) : String :=
  "Product " ++ toString (i + 1) ++ " is missing required fields (name, description, measure)."

/-- Reply identifying a product entry whose measure is outside the route
whitelist by its 1-based position. -/
def prodMeasureMsg (i : Nat) : String :=
  "Product " ++ toString (i + 1) ++ " has invalid measure. Must be one of: " ++ String.intercalate ", " validMeasures

/-- Reply of the database-failure catch inside the add_stock branch. -/
def stockDbFailMsg : String :=
  "Failed to add stock. Please try again."

/-- Reply of the database-failure catch inside the add_product branch. -/
def productDbFailMsg : String :=
  "Failed to add product. Please try again."

/-- Success reply of the add_stock branch. -/
def stockOkMsg (n : Nat) : String :=
  "✅ " ++ toString n ++ " stock entry(ies) added successfully."

/-- Success reply of the add_product branch. -/
def productOkMsg (n : Nat) : String :=
  "✅ " ++ toString n ++ " product(s) added successfully."

/-- Per-entry validation of the add_stock branch: truthy expiryDate, truthy
qty, qty not NaN and qty not at most zero. -/
def validStockEntry (e : JVal) : Bool :=
  jsTruthy (getField e "expiryDate") && jsTruthy (getField e "qty") &&
    !jsNaN (getField e "qty") && !jsLeZero (getField e "qty")

/-- Index of the first entry failing a per-entry check, counting from the
given start index. -/
def firstFailing (p : JVal → Bool) : List JVal → Nat → Option Nat
  | [], _ => none
  | e :: es, i => if p e then firstFailing p es (i + 1) else some i

/-- Per-entry issue of the add_product branch: some true when a required
field is missing or empty, some false when the fields are present but the
measure is outside the route whitelist. -/
def prodEntryIssue (e : JVal) : Option Bool :=
  if ¬ (jsTruthy (getField e "name") && jsTruthy (getField e "description") &&
        jsTruthy (getField e "measure")) then some true
  else if ¬ routeMeasureOk (getField e "measure") then some false
  else none

/-- First product entry with an issue, paired with the issue kind. -/
def firstProdIssue : List JVal → Nat → Option (Nat × Bool)
  | [], _ => none
  | e :: es, i =>
    match prodEntryIssue e with
    | some b => some (i, b)
    | none => firstProdIssue es (i + 1)

/-- Whether the mongoose stock schema can cast an add_stock entry on save:
the expiry date must be a castable date value and the qty a castable
number.  String dates are modelled for the dashed calendar shape the prompt
mandates; numeric timestamps also cast. -/
def stockCastOk (e : JVal) : Bool :=
  (match getField e "expiryDate" with
   | .str s => isValidYMD s
   | .num _ => true
   | _ => false) && (toNum (getField e "qty")).isSome

/-- The add_stock dispatch branch: the payload must be an array; each entry
is validated in order with an indexed reply on the first failure; then the
entries are pushed onto the stock document (created when absent); a save
failure from uncastable entries is caught and answered with the
database-failure reply and no persisted change. -/
def chatAddStock (data : JVal) (st : CState) : ChatResp × CState :=
  match data with
  | .arr entries =>
    match firstFailing validStockEntry entries 0 with
    | some i => (⟨200, .str (stockInvalidMsg i)⟩, st)
    | none =>
      if entries.all stockCastOk then
        match st.ledger with
        | none => (⟨200, .str (stockOkMsg entries.length)⟩, { st with ledger := some entries })
        | some l => (⟨200, .str (stockOkMsg entries.length)⟩, { st with ledger := some (l ++ entries) })
      else (⟨200, .str stockDbFailMsg⟩, st)
  | _ => (⟨200, .str stockFormatMsg⟩, st)

/-- The add_product dispatch branch: the payload must be an array; each
entry is checked in order for required fields and whitelist membership with
an indexed reply on the first issue; then the entries are pushed onto the
product document (created when absent); a save rejected by the schema
measure enumeration is caught and answered with the database-failure reply
and no persisted change. -/
def chatAddProduct (data : JVal) (st : CState) : ChatResp × CState :=
  match data with
  | .arr entries =>
    match firstProdIssue entries 0 with
    | some (i, true) => (⟨200, .str (prodMissingMsg i)⟩, st)
    | some (i, false) => (⟨200, .str (prodMeasureMsg i)⟩, st)
    | none =>
      if schemaSaveOk entries then
        match st.catalog with
        | none => (⟨200, .str (productOkMsg entries.length)⟩, { st with catalog := some entries })
        | some c => (⟨200, .str (productOkMsg entries.length)⟩, { st with catalog := some (c ++ entries) })
      else (⟨200, .str productDbFailMsg⟩, st)
  | _ => (⟨200, .str productFormatMsg⟩, st)

/-- Strict string comparison of the decoded intent field against an intent
name. -/
def intentIs (aiData : JVal) (name : String) : Bool :=
  match getField aiData "intent" with
  | .str t => t == name
  | _ => false

/-- The structure check applied to the decoded value before dispatch: a
truthy value of object type carrying a truthy intent field. -/
def structOk (aiData : JVal) : Bool :=
  jsTruthy aiData &&
    (match aiData with
     | .obj _ => true
     | .arr _ => true
     | .null => true
     | _ => false) &&
    jsTruthy (getField aiData "intent")

/-- Intent dispatch after a structurally valid decode, in the order the
handler tests the intent: with a product context add_stock and add_product
mutate, chat echoes the reply field, anything else falls through; without a
product context add_stock is redirected to the product page and only
add_product mutates. -/
def chatDispatch (hasProductId : Bool) (aiData : JVal) (st : CState) :
    ChatResp × CState :=
  if hasProductId then
    if intentIs aiData "add_stock" then chatAddStock (getField aiData "data") st
    else if intentIs aiData "add_product" then chatAddProduct (getField aiData "data") st
    else if intentIs aiData "chat" then (⟨200, getField aiData "reply"⟩, st)
    else (⟨200, .str notUnderstoodMsg⟩, st)
  else
    if intentIs aiData "add_product" then chatAddProduct (getField aiData "data") st
    else if intentIs aiData "add_stock" then (⟨200, .str openProductMsg⟩, st)
    else if intentIs aiData "chat" then (⟨200, getField aiData "reply"⟩, st)
    else (⟨200, .str notUnderstoodMsg⟩, st)

/-- The /chat/ai endpoint after its required-field and api-key guards, over
an abstract JSON parser and the outcome of the external generation call
(none models the axios call throwing, reaching the outer catch): empty text
and decode failures answer 200 with fixed fallback replies, a structurally
invalid decode answers 200 with the processing fallback, and only a
structurally valid decode reaches the dispatcher. -/
def chatAI (parse : String → Option JVal) (gen : Option String)
    (hasProductId : Bool) (st : CState) : ChatResp × CState :=
  match gen with
  | none => (⟨500, .str apologyMsg⟩, st)
  | some raw =>
    if raw = "" then (⟨200, .str emptyGenMsg⟩, st)
    else
      let aiText := stripFences raw
      match decodeTiers parse aiText with
      | none => (⟨200, .str troubleMsg⟩, st)
      | some aiData =>
        if structOk aiData then chatDispatch hasProductId aiData st
        else (⟨200, .str processMsg⟩, st)

/-- Decomposition of a successful lot lookup: the list splits around the
first lot carrying the id, no earlier lot carries it, and updating through
the found reference rewrites exactly that position. -/
theorem findLot_decomp {l : List StockItem} {sid : Nat} {lot : StockItem}
    (h : findLot l sid = some lot) (f : StockItem → StockItem) :
    ∃ l1 l2, l = l1 ++ lot :: l2 ∧ lot.id = sid ∧ (∀ x ∈ l1, x.id ≠ sid) ∧
      updateFirst l sid f = l1 ++ f lot :: l2 := by
  induction l with
  | nil => simp [findLot] at h
  | cons x xs ih =>
    by_cases hx : x.id = sid
    · have hxl : x = lot := by simpa [findLot, hx] using h
      subst hxl
      exact ⟨[], xs, rfl, hx, by simp, by simp [updateFirst, hx]⟩
    · simp only [findLot, if_neg hx] at h
      obtain ⟨l1, l2, heq, hid, hnone, hupd⟩ := ih h
      exact ⟨x :: l1, l2, by simp [heq], hid,
        by intro y hy
           rcases List.mem_cons.mp hy with rfl | hy'
           · exact hx
           · exact hnone y hy',
        by simp [updateFirst, if_neg hx, hupd]⟩

/-- Lot lookup skips a prefix in which no lot carries the id. -/
theorem findLot_append_of_not_mem (sid : Nat) (l2 : List StockItem) :
    ∀ l1 : List StockItem, (∀ x ∈ l1, x.id ≠ sid) →
      findLot (l1 ++ l2) sid = findLot l2 sid
  | [], _ => by simp
  | x :: xs, h => by
    simp only [List.cons_append, findLot, if_neg (h x (List.mem_cons_self x xs))]
    exact findLot_append_of_not_mem sid l2 xs
      (fun y hy => h y (List.mem_cons_of_mem x hy))

/-- C1.  In-range consumption: when the ledger holds the lot and
0 < usedQty ≤ lot.qty, the consume handler succeeds with status 200,
rewrites exactly the found lot, decrements its quantity by usedQty and
appends exactly one usage event carrying usedQty and the current time. -/
theorem consume_in_range_decrements_and_logs (l : List StockItem) (sid : Nat)
    (u : ℚ) (now : Nat) (lot : StockItem) (hfind : findLot l sid = some lot)
    (hpos : 0 < u) (hle : u ≤ lot.qty) :
    stockUse (some l) sid u now =
      (UseOutcome.ok, some (updateFirst l sid (fun it =>
        { it with qty := it.qty - u, entry := it.entry ++ [⟨u, now⟩] }))) ∧
    useStatus UseOutcome.ok = 200 ∧
    findLot (updateFirst l sid (fun it =>
        { it with qty := it.qty - u, entry := it.entry ++ [⟨u, now⟩] })) sid =
      some ⟨lot.id, lot.expiryDate, lot.qty - u, lot.entry ++ [⟨u, now⟩]⟩ := by
  have h0 : ¬ (u = 0) := ne_of_gt hpos
  have h1 : ¬ (u ≤ 0) := not_le.mpr hpos
  have h2 : ¬ (lot.qty < u) := not_lt.mpr hle
  refine ⟨by simp [stockUse, h0, h1, hfind, h2], rfl, ?_⟩
  obtain ⟨l1, l2, _, hid, hnone, hupd⟩ :=
    findLot_decomp hfind (fun it =>
      { it with qty := it.qty - u, entry := it.entry ++ [⟨u, now⟩] })
  rw [hupd, findLot_append_of_not_mem _ _ _ hnone]
  simp [findLot, hid]

/-- C2.  Over-consumption: when the ledger holds the lot with its invariant
quantity 0 ≤ lot.qty and usedQty exceeds it, the consume handler answers
the insufficient-stock 400 and returns with the ledger document exactly as
it was, every lot and usage log untouched. -/
theorem consume_insufficient_rejected_no_mutation (l : List StockItem)
    (sid : Nat) (u : ℚ) (now : Nat) (lot : StockItem)
    (hfind : findLot l sid = some lot) (hq : 0 ≤ lot.qty) (hgt : lot.qty < u) :
    stockUse (some l) sid u now = (UseOutcome.insufficient, some l) ∧
    useStatus UseOutcome.insufficient = 400 := by
  have hpos : 0 < u := lt_of_le_of_lt hq hgt
  have h0 : ¬ (u = 0) := ne_of_gt hpos
  have h1 : ¬ (u ≤ 0) := not_le.mpr hpos
  exact ⟨by simp [stockUse, h0, h1, hfind, hgt], rfl⟩

/-- Concrete instance of the in-range consumption theorem: a lot of 10 with
4 consumed at time 7. -/
theorem consume_in_range_witness :
    stockUse (some [⟨1, "2025-01-01", 10, []⟩]) 1 4 7 =
      (UseOutcome.ok, some (updateFirst [⟨1, "2025-01-01", 10, []⟩] 1 (fun it =>
        { it with qty := it.qty - 4, entry := it.entry ++ [⟨4, 7⟩] }))) ∧
    useStatus UseOutcome.ok = 200 ∧
    findLot (updateFirst [⟨1, "2025-01-01", 10, []⟩] 1 (fun it =>
        { it with qty := it.qty - 4, entry := it.entry ++ [⟨4, 7⟩] })) 1 =
      some ⟨1, "2025-01-01", 10 - 4, [⟨4, 7⟩]⟩ :=
  consume_in_range_decrements_and_logs [⟨1, "2025-01-01", 10, []⟩] 1 4 7
    ⟨1, "2025-01-01", 10, []⟩ rfl (by norm_num) (by norm_num)

/-- Concrete instance of the over-consumption theorem: a lot of 5 with 8
requested. -/
theorem consume_insufficient_witness :
    stockUse (some [⟨2, "2025-01-01", 5, []⟩]) 2 8 3 =
      (UseOutcome.insufficient, some [⟨2, "2025-01-01", 5, []⟩]) ∧
    useStatus UseOutcome.insufficient = 400 :=
  consume_insufficient_rejected_no_mutation [⟨2, "2025-01-01", 5, []⟩] 2 8 3
    ⟨2, "2025-01-01", 5, []⟩ rfl (by norm_num) (by norm_num)


/-- A ledger mutation performed by one of the two stock routes. -/
inductive LedgerOp where
  | add (expiryDate qty : JVal) (newId : Nat)
  | use (sid : Nat) (usedQty : ℚ) (now : Nat)

/-- Ledger state after running one stock route, whatever its outcome. -/
def opStep (op : LedgerOp) (ledger : Option (List StockItem)) :
    Option (List StockItem) :=
  match op with
  | .add e q nid => (stockAdd ledger e q nid).2
  | .use sid u now => (stockUse ledger sid u now).2


/-- The add route either leaves the ledger untouched or appends exactly one
fresh lot with a strictly positive quantity and an empty usage log. -/
theorem stockAdd_state (ledger : Option (List StockItem)) (e q : JVal)
    (nid : Nat) :
    (stockAdd ledger e q nid).2 = ledger ∨
    ∃ s qv, 0 < qv ∧
      (stockAdd ledger e q nid).2 =
        some (listLots ledger ++ [⟨nid, s, qv, []⟩]) := by
  cases e with
  | str s =>
    cases hq : toNum q with
    | some qv =>
      unfold stockAdd
      simp only [hq]
      split
      · exact Or.inl rfl
      · split
        · exact Or.inl rfl
        · rename_i hnum
          split
          · exact Or.inl rfl
          · split
            · refine Or.inr ⟨s, qv, ?_, ?_⟩
              · simp only [Bool.or_eq_true, not_or] at hnum
                have h2 := hnum.2
                simp only [jsLeZero, hq, decide_eq_true_eq, not_le] at h2
                exact h2
              · cases ledger with
                | none => simp [listLots]
                | some lots => simp [listLots]
            · exact Or.inl rfl
    | none =>
      unfold stockAdd
      simp only [hq]
      split
      · exact Or.inl rfl
      · split
        · exact Or.inl rfl
        · split
          · exact Or.inl rfl
          · exact Or.inl rfl
  | null =>
    unfold stockAdd
    split
    · exact Or.inl rfl
    · split
      · exact Or.inl rfl
      · split
        · exact Or.inl rfl
        · exact Or.inl rfl
  | bool b =>
    unfold stockAdd
    split
    · exact Or.inl rfl
    · split
      · exact Or.inl rfl
      · split
        · exact Or.inl rfl
        · exact Or.inl rfl
  | num n =>
    unfold stockAdd
    split
    · exact Or.inl rfl
    · split
      · exact Or.inl rfl
      · split
        · exact Or.inl rfl
        · exact Or.inl rfl
  | arr xs =>
    unfold stockAdd
    split
    · exact Or.inl rfl
    · split
      · exact Or.inl rfl
      · split
        · exact Or.inl rfl
        · exact Or.inl rfl
  | obj fs =>
    unfold stockAdd
    split
    · exact Or.inl rfl
    · split
      · exact Or.inl rfl
      · split
        · exact Or.inl rfl
        · exact Or.inl rfl

/-- Image of a lot under the consume mutation: quantity decremented and one
usage event appended. -/
def consumedLot (it : StockItem) (u : ℚ) (now : Nat) : StockItem :=
  { it with qty := it.qty - u, entry := it.entry ++ [⟨u, now⟩] }

/-- How a surviving lot may relate to its pre-operation self: same identity,
same reconstructed original quantity, quantity staying non-negative, and a
usage log only ever extended at the end. -/
def lotEvolves (a b : StockItem) : Prop :=
  b.id = a.id ∧ origQty b = origQty a ∧ (0 ≤ a.qty → 0 ≤ b.qty) ∧
    a.entry <+: b.entry

theorem lotEvolves_refl (a : StockItem) : lotEvolves a a :=
  ⟨rfl, rfl, fun h => h, List.prefix_rfl⟩

/-- The unchanged-state case of the invariant theorem. -/
theorem evolve_frame (l : List StockItem) :
    List.Forall₂ lotEvolves l (l.take l.length) ∧
      ∀ x ∈ l.drop l.length, 0 < x.qty ∧ x.entry = [] := by
  rw [List.take_length, List.drop_length]
  exact ⟨List.forall₂_same.mpr (fun x _ => lotEvolves_refl x), by simp⟩

/-- The append-one-lot case of the invariant theorem. -/
theorem evolve_append (l : List StockItem) (x : StockItem) (hq : 0 < x.qty)
    (he : x.entry = []) :
    List.Forall₂ lotEvolves l ((l ++ [x]).take l.length) ∧
      ∀ y ∈ (l ++ [x]).drop l.length, 0 < y.qty ∧ y.entry = [] := by
  rw [List.take_left, List.drop_left]
  refine ⟨List.forall₂_same.mpr (fun y _ => lotEvolves_refl y), ?_⟩
  intro y hy
  simp only [List.mem_singleton] at hy
  subst hy
  exact ⟨hq, he⟩

/-- The consume route either leaves the ledger untouched or rewrites exactly
the first lot carrying the requested id, subtracting a quantity bounded by
what the lot held and appending one usage event. -/
theorem stockUse_state (ledger : Option (List StockItem)) (sid : Nat) (u : ℚ)
    (now : Nat) :
    (stockUse ledger sid u now).2 = ledger ∨
    ∃ lots lot l1 l2, ledger = some lots ∧ lots = l1 ++ lot :: l2 ∧
      u ≤ lot.qty ∧
      (stockUse ledger sid u now).2 =
        some (l1 ++ consumedLot lot u now :: l2) := by
  unfold stockUse
  split
  · exact Or.inl rfl
  · split
    · exact Or.inl rfl
    · cases ledger with
      | none => exact Or.inl rfl
      | some lots =>
        cases hf : findLot lots sid with
        | none => exact Or.inl (by simp only [hf])
        | some lot =>
          simp only [hf]
          split
          · exact Or.inl rfl
          · rename_i hlt
            obtain ⟨l1, l2, heq, _, _, hupd⟩ := findLot_decomp hf
              (fun it => consumedLot it u now)
            refine Or.inr ⟨lots, lot, l1, l2, rfl, heq, not_lt.mp hlt, ?_⟩
            show some (updateFirst lots sid (fun it => consumedLot it u now)) =
              some (l1 ++ consumedLot lot u now :: l2)
            rw [hupd]

/-- C3.  Every stock route preserves the ledger invariant: each lot present
before the call evolves only by keeping its identity and its reconstructed
original quantity, never dropping below zero, and only appending to its
usage log (never mutating or removing recorded events); any lot the call
adds starts with a strictly positive quantity and an empty log.  Failing
calls leave the state alone and are covered by the same statement. -/
theorem stock_ops_preserve_ledger_invariant (op : LedgerOp)
    (ledger : Option (List StockItem)) :
    List.Forall₂ lotEvolves (listLots ledger)
      ((listLots (opStep op ledger)).take (listLots ledger).length) ∧
    ∀ x ∈ (listLots (opStep op ledger)).drop (listLots ledger).length,
      0 < x.qty ∧ x.entry = [] := by
  cases op with
  | add e q nid =>
    show List.Forall₂ lotEvolves (listLots ledger)
        ((listLots (stockAdd ledger e q nid).2).take (listLots ledger).length) ∧
      ∀ x ∈ (listLots (stockAdd ledger e q nid).2).drop
          (listLots ledger).length, 0 < x.qty ∧ x.entry = []
    rcases stockAdd_state ledger e q nid with hfr | ⟨s, qv, hqv, hsome⟩
    · rw [hfr]; exact evolve_frame _
    · rw [hsome]
      exact evolve_append (listLots ledger) ⟨nid, s, qv, []⟩ hqv rfl
  | use sid u now =>
    show List.Forall₂ lotEvolves (listLots ledger)
        ((listLots (stockUse ledger sid u now).2).take (listLots ledger).length) ∧
      ∀ x ∈ (listLots (stockUse ledger sid u now).2).drop
          (listLots ledger).length, 0 < x.qty ∧ x.entry = []
    rcases stockUse_state ledger sid u now with hfr | ⟨lots, lot, l1, l2, hled, heq, hle, hsome⟩
    · rw [hfr]; exact evolve_frame _
    · rw [hsome, hled, heq]
      have hlen : (l1 ++ consumedLot lot u now :: l2).length =
          (l1 ++ lot :: l2).length := by simp
      constructor
      · show List.Forall₂ lotEvolves (l1 ++ lot :: l2)
          ((l1 ++ consumedLot lot u now :: l2).take (l1 ++ lot :: l2).length)
        rw [← hlen, List.take_length]
        refine List.rel_append
          (List.forall₂_same.mpr (fun y _ => lotEvolves_refl y))
          (List.Forall₂.cons ?_
            (List.forall₂_same.mpr (fun y _ => lotEvolves_refl y)))
        show lotEvolves lot (consumedLot lot u now)
        refine ⟨rfl, ?_, fun _ => sub_nonneg.mpr hle,
          List.prefix_append lot.entry [⟨u, now⟩]⟩
        show origQty (consumedLot lot u now) = origQty lot
        simp only [origQty, consumedLot, List.map_append, List.sum_append,
          List.map_cons, List.map_nil, List.sum_cons, List.sum_nil]
        ring
      · show ∀ x ∈ (l1 ++ consumedLot lot u now :: l2).drop
            (l1 ++ lot :: l2).length, 0 < x.qty ∧ x.entry = []
        rw [← hlen, List.drop_length]
        simp

/-- C7 counterexample.  The well-formed but non-existent calendar date
2024-13-45 passes every route-level check of the add-stock handler (the
route only tests the dashed digit pattern), so the request is not rejected
with a 400 validation error; it reaches the save, whose date cast fails,
and the handler answers the catch-all 500. -/
theorem addlot_month13_not_validation_rejected :
    stockAdd none (.str "2024-13-45") (.num 5) 0 = (.storageErr, none) ∧
    addStatus AddOutcome.storageErr = 500 ∧
    dateFormatTest (.str "2024-13-45") = true ∧
    isValidYMD "2024-13-45" = false := by
  refine ⟨by decide, rfl, by decide, by decide⟩

/-- C7 (amended).  The add-stock route rejects with 400 validation errors,
before any mutation, requests with a missing or falsy field, a
non-positive or non-numeric quantity, or an expiry failing the dashed
digit pattern; a pattern-valid expiry is accepted by route validation even
when it denotes no calendar date, in which case the failure surfaces at
save time as the catch-all 500, again with the ledger unchanged. -/
theorem addlot_validation_contract (ledger : Option (List StockItem))
    (expiryDate qty : JVal) (newId : Nat) :
    (¬ (jsTruthy expiryDate && jsTruthy qty) = true →
      stockAdd ledger expiryDate qty newId = (.requiredErr, ledger) ∧
      addStatus AddOutcome.requiredErr = 400) ∧
    ((jsTruthy expiryDate && jsTruthy qty) = true →
      (jsNaN qty || jsLeZero qty) = true →
      stockAdd ledger expiryDate qty newId = (.qtyErr, ledger) ∧
      addStatus AddOutcome.qtyErr = 400) ∧
    ((jsTruthy expiryDate && jsTruthy qty) = true →
      (jsNaN qty || jsLeZero qty) = false →
      dateFormatTest expiryDate = false →
      stockAdd ledger expiryDate qty newId = (.dateFormatErr, ledger) ∧
      addStatus AddOutcome.dateFormatErr = 400) ∧
    (∀ s, expiryDate = .str s →
      (jsTruthy expiryDate && jsTruthy qty) = true →
      (jsNaN qty || jsLeZero qty) = false →
      dateFormatTest expiryDate = true →
      isValidYMD s = false →
      stockAdd ledger expiryDate qty newId = (.storageErr, ledger) ∧
      addStatus AddOutcome.storageErr = 500) := by
  refine ⟨?_, ?_, ?_, ?_⟩
  · intro h
    exact ⟨by simp only [stockAdd, if_pos h], rfl⟩
  · intro h1 h2
    refine ⟨?_, rfl⟩
    simp only [stockAdd, h1]
    rw [if_neg (by simp), if_pos h2]
  · intro h1 h2 h3
    refine ⟨?_, rfl⟩
    simp only [stockAdd, h1, h2]
    rw [if_neg (by simp), if_neg (by simp), if_pos (by simp [h3])]
  · intro s hs h1 h2 h3 h4
    subst hs
    refine ⟨?_, rfl⟩
    have hnn : jsNaN qty = false := (Bool.or_eq_false_iff.mp h2).1
    cases hqv : toNum qty with
    | none => rw [jsNaN, hqv] at hnn; simp at hnn
    | some qv =>
      simp only [stockAdd, h1, h2, hqv]
      rw [if_neg (by simp), if_neg (by simp), if_neg (by simp [h3])]
      simp only [h4]
      rfl

/-- Concrete instances of the add-stock validation contract: a missing
expiry, a negative quantity, a malformed date and the non-existent
calendar date 2024-13-45. -/
theorem addlot_validation_contract_witness :
    (stockAdd (some []) .null (.num 5) 3 = (.requiredErr, some []) ∧
      addStatus AddOutcome.requiredErr = 400) ∧
    (stockAdd (some []) (.str "2025-01-02") (.num (-3)) 3 = (.qtyErr, some []) ∧
      addStatus AddOutcome.qtyErr = 400) ∧
    (stockAdd (some []) (.str "soon") (.num 5) 3 = (.dateFormatErr, some []) ∧
      addStatus AddOutcome.dateFormatErr = 400) ∧
    (stockAdd (some []) (.str "2024-13-45") (.num 5) 3 = (.storageErr, some []) ∧
      addStatus AddOutcome.storageErr = 500) :=
  ⟨(addlot_validation_contract (some []) .null (.num 5) 3).1 (by decide),
   (addlot_validation_contract (some []) (.str "2025-01-02") (.num (-3)) 3).2.1
     (by decide) (by decide),
   (addlot_validation_contract (some []) (.str "soon") (.num 5) 3).2.2.1
     (by decide) (by decide) (by decide),
   (addlot_validation_contract (some []) (.str "2024-13-45") (.num 5) 3).2.2.2
     "2024-13-45" rfl (by decide) (by decide) (by decide) (by decide)⟩

/-- C8.  For a valid expiry string and positive quantity, the add-stock
route appends exactly one new lot: the updated stock document is the old
lot list plus the new lot (so a subsequent read of the lot list contains a
lot with that expiry and quantity and every pre-existing lot is untouched
in place), the product catalog document is not written, and the request
succeeds with 201 on first creation or 200 on append. -/
theorem addlot_then_list_contains (st : RestState) (s : String) (q : ℚ)
    (newId : Nat) (hpat : datePatChars s.data = true)
    (hcal : isValidYMD s = true) (hq : 0 < q) :
    (restStockAdd st (.str s) (.num q) newId).2.ledger =
      some (listLots st.ledger ++ [⟨newId, s, q, []⟩]) ∧
    (restStockAdd st (.str s) (.num q) newId).2.catalog = st.catalog ∧
    (⟨newId, s, q, []⟩ : StockItem) ∈
      listLots (restStockAdd st (.str s) (.num q) newId).2.ledger ∧
    (addStatus (restStockAdd st (.str s) (.num q) newId).1 = 201 ∨
      addStatus (restStockAdd st (.str s) (.num q) newId).1 = 200) := by
  have hne : s ≠ "" := by
    intro h
    subst h
    exact absurd hpat (by decide)
  have hqt : jsTruthy (.num q) = true := by
    simp only [jsTruthy, if_neg (ne_of_gt hq)]
  have hst : jsTruthy (.str s) = true := by
    simp only [jsTruthy, Bool.not_eq_true']
    rw [Bool.eq_false_iff]
    intro h
    exact hne ((String.isEmpty_iff _).mp h)
  have h1 : (jsTruthy (.str s) && jsTruthy (.num q)) = true := by
    rw [hst, hqt]; rfl
  have h2 : (jsNaN (.num q) || jsLeZero (.num q)) = false := by
    simp only [jsNaN, toNum, Option.isNone_some, jsLeZero, Bool.or_self,
      Bool.false_or, decide_eq_false_iff_not, not_le]
    exact hq
  have h3 : dateFormatTest (.str s) = true := hpat
  cases hl : st.ledger with
  | none =>
    have hres : restStockAdd st (.str s) (.num q) newId =
        (AddOutcome.createdOk, { st with ledger := some [⟨newId, s, q, []⟩] }) := by
      simp [restStockAdd, stockAdd, toNum, h1, h2, h3, hcal, hl]
    rw [hres]
    exact ⟨by simp [hl, listLots], rfl, by simp [listLots], Or.inl rfl⟩
  | some lots =>
    have hres : restStockAdd st (.str s) (.num q) newId =
        (AddOutcome.updatedOk,
         { st with ledger := some (lots ++ [⟨newId, s, q, []⟩]) }) := by
      simp [restStockAdd, stockAdd, toNum, h1, h2, h3, hcal, hl]
    rw [hres]
    exact ⟨by simp [hl, listLots], rfl, by simp [listLots], Or.inr rfl⟩

/-- Concrete instance of the add-then-list theorem: one pre-existing lot,
a fresh lot of 4 expiring 2025-02-03. -/
theorem addlot_then_list_contains_witness :
    (restStockAdd ⟨some [JVal.str "p"], some [⟨1, "2025-01-01", 2, []⟩]⟩
        (.str "2025-02-03") (.num 4) 9).2.ledger =
      some (listLots (some [⟨1, "2025-01-01", 2, []⟩]) ++ [⟨9, "2025-02-03", 4, []⟩]) ∧
    (restStockAdd ⟨some [JVal.str "p"], some [⟨1, "2025-01-01", 2, []⟩]⟩
        (.str "2025-02-03") (.num 4) 9).2.catalog = some [JVal.str "p"] ∧
    (⟨9, "2025-02-03", 4, []⟩ : StockItem) ∈
      listLots (restStockAdd ⟨some [JVal.str "p"], some [⟨1, "2025-01-01", 2, []⟩]⟩
        (.str "2025-02-03") (.num 4) 9).2.ledger ∧
    (addStatus (restStockAdd ⟨some [JVal.str "p"], some [⟨1, "2025-01-01", 2, []⟩]⟩
        (.str "2025-02-03") (.num 4) 9).1 = 201 ∨
      addStatus (restStockAdd ⟨some [JVal.str "p"], some [⟨1, "2025-01-01", 2, []⟩]⟩
        (.str "2025-02-03") (.num 4) 9).1 = 200) :=
  addlot_then_list_contains ⟨some [JVal.str "p"], some [⟨1, "2025-01-01", 2, []⟩]⟩
    "2025-02-03" 4 9 (by decide) (by decide) (by norm_num)

/-- All catalog entries an option-wrapped product document holds carry a
measure inside the schema enumeration. -/
def catalogSchemaOk (catalog : Option (List JVal)) : Bool :=
  (catalog.getD []).all (fun e => schemaMeasureOk (getField e "measure"))

/-- C10.  The route-level measure whitelist strictly contains the schema
enumeration: every schema measure is whitelisted while liter and Liter are
whitelisted but not in the schema; an add-product request carrying either
one passes the route's measure validation yet ends in the catch-all 500
because the schema rejects the save, with the catalog untouched; and the
add-product route keeps every persisted entry's measure inside the schema
enumeration. -/
theorem measure_whitelist_strictly_contains_schema :
    ((∀ s ∈ schemaMeasures, s ∈ validMeasures) ∧
      "liter" ∈ validMeasures ∧ "liter" ∉ schemaMeasures ∧
      "Liter" ∈ validMeasures ∧ "Liter" ∉ schemaMeasures) ∧
    (∀ (catalog : Option (List JVal)) (name description : JVal) (m : String),
      jsTruthy name = true → jsTruthy description = true →
      (m = "liter" ∨ m = "Liter") →
      productAdd catalog name description (.str m) = (.saveErr, catalog) ∧
      routeMeasureOk (.str m) = true ∧
      prodStatus ProdOutcome.saveErr = 500) ∧
    (∀ (catalog : Option (List JVal)) (name description measure : JVal),
      catalogSchemaOk catalog = true →
      catalogSchemaOk (productAdd catalog name description measure).2 = true) := by
  refine ⟨by decide, ?_, ?_⟩
  · intro catalog name description m hn hd hm
    have hmt : jsTruthy (.str m) = true := by
      rcases hm with rfl | rfl <;> decide
    have hroute : routeMeasureOk (.str m) = true := by
      rcases hm with rfl | rfl <;> decide
    have hschema : schemaSaveOk [mkProductEntry name description (.str m)] = false := by
      rcases hm with rfl | rfl <;>
        simp [schemaSaveOk, schemaMeasureOk, mkProductEntry, getField,
          lookupField, schemaMeasures]
    refine ⟨?_, hroute, rfl⟩
    simp [productAdd, hn, hd, hmt, hroute, hschema]
  · intro catalog name description measure hcat
    unfold productAdd
    split
    · exact hcat
    · split
      · exact hcat
      · split
        · rename_i hschema
          cases catalog with
          | none => simpa [catalogSchemaOk, schemaSaveOk] using hschema
          | some ps =>
            simp only [catalogSchemaOk, Option.getD_some, List.all_append]
            simp only [catalogSchemaOk, Option.getD_some] at hcat
            rw [hcat]
            simpa [schemaSaveOk] using hschema
        · exact hcat

/-- Concrete instance of the whitelist/schema gap theorem: adding Milk with
measure liter to an existing one-entry catalog. -/
theorem measure_whitelist_gap_witness :
    (productAdd (some [.obj [("name", .str "Rice"), ("description", .str "Grain"),
        ("measure", .str "kg")]] ) (.str "Milk") (.str "Dairy") (.str "liter") =
      (.saveErr, some [.obj [("name", .str "Rice"), ("description", .str "Grain"),
        ("measure", .str "kg")]]) ∧
      routeMeasureOk (.str "liter") = true ∧
      prodStatus ProdOutcome.saveErr = 500) ∧
    catalogSchemaOk (productAdd (some [.obj [("name", .str "Rice"),
        ("description", .str "Grain"), ("measure", .str "kg")]])
      (.str "Milk") (.str "Dairy") (.str "liter")).2 = true :=
  ⟨(measure_whitelist_strictly_contains_schema.2.1
      (some [.obj [("name", .str "Rice"), ("description", .str "Grain"),
        ("measure", .str "kg")]])
      (.str "Milk") (.str "Dairy") "liter" (by decide) (by decide) (Or.inl rfl)),
   (measure_whitelist_strictly_contains_schema.2.2
      (some [.obj [("name", .str "Rice"), ("description", .str "Grain"),
        ("measure", .str "kg")]])
      (.str "Milk") (.str "Dairy") (.str "liter") (by decide))⟩

/-- C4 counterexample.  A product entry with non-empty name and
description and measure liter passes the per-entry route validation of the
add_product branch (no issue is reported for it), yet the batch is not
appended: the schema rejects the save and the branch answers the generic
database-failure reply, with no index-carrying validation error and the
catalog unchanged. -/
theorem addproducts_route_valid_liter_not_appended :
    prodEntryIssue (.obj [("name", .str "Milk"), ("description", .str "Dairy"),
      ("measure", .str "liter")]) = none ∧
    chatAddProduct (.arr [.obj [("name", .str "Milk"), ("description", .str "Dairy"),
      ("measure", .str "liter")]]) ⟨some [], none⟩ =
      (⟨200, .str productDbFailMsg⟩, ⟨some [], none⟩) :=
  ⟨rfl, rfl⟩

/-- C4 (amended).  The add_product batch is screened entry by entry against
the route whitelist: a missing or empty field, or a measure outside the
whitelist, fails the whole batch with a reply naming the offending entry's
1-based position and leaves the catalog untouched; a batch that passes the
route screen is appended in full only when every measure also lies in the
schema enumeration — otherwise the save is rejected, the branch answers
the generic database-failure reply and the catalog stays unchanged. -/
theorem addproducts_batch_contract (entries : List JVal) (st : CState) :
    (∀ i, firstProdIssue entries 0 = some (i, true) →
      chatAddProduct (.arr entries) st = (⟨200, .str (prodMissingMsg i)⟩, st)) ∧
    (∀ i, firstProdIssue entries 0 = some (i, false) →
      chatAddProduct (.arr entries) st = (⟨200, .str (prodMeasureMsg i)⟩, st)) ∧
    (firstProdIssue entries 0 = none → schemaSaveOk entries = true →
      chatAddProduct (.arr entries) st =
        (⟨200, .str (productOkMsg entries.length)⟩,
         { st with catalog := some ((st.catalog.getD []) ++ entries) })) ∧
    (firstProdIssue entries 0 = none → schemaSaveOk entries = false →
      chatAddProduct (.arr entries) st = (⟨200, .str productDbFailMsg⟩, st)) := by
  refine ⟨?_, ?_, ?_, ?_⟩
  · intro i h
    simp [chatAddProduct, h]
  · intro i h
    simp [chatAddProduct, h]
  · intro h hs
    cases hc : st.catalog with
    | none => simp [chatAddProduct, h, hs, hc]
    | some c => simp [chatAddProduct, h, hs, hc]
  · intro h hs
    simp [chatAddProduct, h, hs]

/-- Concrete instances of the add_product batch contract: a batch failing on
a missing description, one failing on an unknown measure, one appended in
full, and one passing the route screen but rejected by the schema. -/
theorem addproducts_batch_contract_witness :
    chatAddProduct (.arr [.obj [("name", .str "A")]]) ⟨none, none⟩ =
      (⟨200, .str (prodMissingMsg 0)⟩, ⟨none, none⟩) ∧
    chatAddProduct (.arr [.obj [("name", .str "A"), ("description", .str "B"),
        ("measure", .str "zz")]]) ⟨none, none⟩ =
      (⟨200, .str (prodMeasureMsg 0)⟩, ⟨none, none⟩) ∧
    chatAddProduct (.arr [.obj [("name", .str "Rice"), ("description", .str "Grain"),
        ("measure", .str "kg")]]) ⟨none, none⟩ =
      (⟨200, .str (productOkMsg 1)⟩,
       ⟨some [.obj [("name", .str "Rice"), ("description", .str "Grain"),
        ("measure", .str "kg")]], none⟩) ∧
    chatAddProduct (.arr [.obj [("name", .str "Milk"), ("description", .str "Dairy"),
        ("measure", .str "Liter")]]) ⟨none, none⟩ =
      (⟨200, .str productDbFailMsg⟩, ⟨none, none⟩) :=
  ⟨(addproducts_batch_contract [.obj [("name", .str "A")]] ⟨none, none⟩).1 0 rfl,
   (addproducts_batch_contract [.obj [("name", .str "A"), ("description", .str "B"),
      ("measure", .str "zz")]] ⟨none, none⟩).2.1 0 rfl,
   (addproducts_batch_contract [.obj [("name", .str "Rice"), ("description", .str "Grain"),
      ("measure", .str "kg")]] ⟨none, none⟩).2.2.1 rfl rfl,
   (addproducts_batch_contract [.obj [("name", .str "Milk"), ("description", .str "Dairy"),
      ("measure", .str "Liter")]] ⟨none, none⟩).2.2.2 rfl rfl⟩

/-- C6 counterexample.  An add_stock payload whose data is the empty array
is not rejected: the per-entry validation loop passes vacuously, the branch
answers the success reply counting zero entries, and when no stock document
exists yet one is created (an empty stockDetail array is written), so the
empty payload neither yields an error reply nor leaves the store
untouched. -/
theorem addstock_empty_array_not_rejected :
    chatAddStock (.arr []) ⟨none, none⟩ =
      (⟨200, .str (stockOkMsg 0)⟩, ⟨none, some []⟩) ∧
    stockOkMsg 0 = "✅ 0 stock entry(ies) added successfully." :=
  ⟨rfl, rfl⟩

/-- C6 (amended).  Kind-specific payload shape validation runs before any
mutation: a non-array add_stock or add_product payload is answered with the
format reply and no store write; an entry failing the per-entry check
(truthy expiry date and truthy positive numeric quantity for stock; truthy
name, description and whitelisted measure for products) is answered with a
reply naming its 1-based position and no store write; but an empty data
array passes validation and is answered with the zero-count success
reply. -/
theorem intent_payload_validation_contract (st : CState) :
    (∀ v : JVal, (∀ l, v ≠ .arr l) →
      chatAddStock v st = (⟨200, .str stockFormatMsg⟩, st)) ∧
    (∀ entries i, firstFailing validStockEntry entries 0 = some i →
      chatAddStock (.arr entries) st = (⟨200, .str (stockInvalidMsg i)⟩, st)) ∧
    (∀ v : JVal, (∀ l, v ≠ .arr l) →
      chatAddProduct v st = (⟨200, .str productFormatMsg⟩, st)) ∧
    (∀ entries i b, firstProdIssue entries 0 = some (i, b) →
      chatAddProduct (.arr entries) st =
        (⟨200, .str (if b then prodMissingMsg i else prodMeasureMsg i)⟩, st)) ∧
    chatAddStock (.arr []) st =
      (⟨200, .str (stockOkMsg 0)⟩, { st with ledger := some (st.ledger.getD []) }) := by
  refine ⟨?_, ?_, ?_, ?_, ?_⟩
  · intro v hv
    cases v with
    | arr l => exact absurd rfl (hv l)
    | null => rfl
    | bool b => rfl
    | num q => rfl
    | str s => rfl
    | obj fs => rfl
  · intro entries i h
    simp [chatAddStock, h]
  · intro v hv
    cases v with
    | arr l => exact absurd rfl (hv l)
    | null => rfl
    | bool b => rfl
    | num q => rfl
    | str s => rfl
    | obj fs => rfl
  · intro entries i b h
    cases b with
    | true => simp [chatAddProduct, h]
    | false => simp [chatAddProduct, h]
  · cases hl : st.ledger with
    | none => simp [chatAddStock, firstFailing, stockCastOk, hl]
    | some l => simp [chatAddStock, firstFailing, stockCastOk, hl]

/-- Concrete instances of the payload validation contract: a string stock
payload, a stock entry with a zero quantity, a numeric product payload, a
product entry missing fields, and the empty stock array. -/
theorem intent_payload_validation_witness :
    chatAddStock (.str "x") ⟨none, none⟩ = (⟨200, .str stockFormatMsg⟩, ⟨none, none⟩) ∧
    chatAddStock (.arr [.obj [("expiryDate", .str "2025-01-01"), ("qty", .num 0)]])
        ⟨none, none⟩ = (⟨200, .str (stockInvalidMsg 0)⟩, ⟨none, none⟩) ∧
    chatAddProduct (.num 3) ⟨none, none⟩ = (⟨200, .str productFormatMsg⟩, ⟨none, none⟩) ∧
    chatAddProduct (.arr [.obj [("name", .str "A")]]) ⟨none, none⟩ =
      (⟨200, .str (if true then prodMissingMsg 0 else prodMeasureMsg 0)⟩, ⟨none, none⟩) ∧
    chatAddStock (.arr []) ⟨some [], some [.null]⟩ =
      (⟨200, .str (stockOkMsg 0)⟩,
       { (⟨some [], some [.null]⟩ : CState) with
         ledger := some ((some [JVal.null]).getD []) }) :=
  ⟨(intent_payload_validation_contract ⟨none, none⟩).1 (.str "x") (fun l h => by cases h),
   (intent_payload_validation_contract ⟨none, none⟩).2.1
     [.obj [("expiryDate", .str "2025-01-01"), ("qty", .num 0)]] 0 (by decide),
   (intent_payload_validation_contract ⟨none, none⟩).2.2.1 (.num 3) (fun l h => by cases h),
   (intent_payload_validation_contract ⟨none, none⟩).2.2.2.1
     [.obj [("name", .str "A")]] 0 true rfl,
   (intent_payload_validation_contract ⟨some [], some [.null]⟩).2.2.2.2⟩

/-- C5 counterexample.  When the external generation call itself throws,
the endpoint's outer catch answers with HTTP status 500 (carrying the
apology reply in the body), so the upstream-call-failure outcome is
propagated as a hard error rather than a 200 degraded reply. -/
theorem chat_upstream_failure_propagates_500 :
    (chatAI (fun _ => none) none true ⟨none, none⟩).1.status = 500 ∧
    (chatAI (fun _ => none) none true ⟨none, none⟩).1.reply = .str apologyMsg :=
  ⟨rfl, rfl⟩

/-- C5 (amended).  Text-level failures are swallowed: empty generated text,
text failing every decode tier, a decoded value failing the structure
check, and a decoded value whose intent is not one of the three recognized
names each yield HTTP 200 with a fixed non-empty fallback reply and no
store change; only the external call throwing reaches the outer catch,
which answers 500 while still carrying a non-empty user-facing reply. -/
theorem chat_decode_failures_degraded (parse : String → Option JVal)
    (hasProductId : Bool) (st : CState) :
    (chatAI parse none hasProductId st = (⟨500, .str apologyMsg⟩, st) ∧
      apologyMsg ≠ "") ∧
    (chatAI parse (some "") hasProductId st = (⟨200, .str emptyGenMsg⟩, st) ∧
      emptyGenMsg ≠ "") ∧
    (∀ raw, raw ≠ "" → decodeTiers parse (stripFences raw) = none →
      chatAI parse (some raw) hasProductId st = (⟨200, .str troubleMsg⟩, st) ∧
      troubleMsg ≠ "") ∧
    (∀ raw v, raw ≠ "" → decodeTiers parse (stripFences raw) = some v →
      structOk v = false →
      chatAI parse (some raw) hasProductId st = (⟨200, .str processMsg⟩, st) ∧
      processMsg ≠ "") ∧
    (∀ raw v, raw ≠ "" → decodeTiers parse (stripFences raw) = some v →
      structOk v = true → intentIs v "add_stock" = false →
      intentIs v "add_product" = false → intentIs v "chat" = false →
      chatAI parse (some raw) hasProductId st =
        (⟨200, .str notUnderstoodMsg⟩, st) ∧ notUnderstoodMsg ≠ "") := by
  refine ⟨⟨rfl, by decide⟩, ⟨rfl, by decide⟩, ?_, ?_, ?_⟩
  · intro raw hraw hdec
    exact ⟨by simp [chatAI, hraw, hdec], by decide⟩
  · intro raw v hraw hdec hstruct
    exact ⟨by simp [chatAI, hraw, hdec, hstruct], by decide⟩
  · intro raw v hraw hdec hstruct h1 h2 h3
    refine ⟨?_, by decide⟩
    cases hasProductId with
    | true => simp [chatAI, hraw, hdec, hstruct, chatDispatch, h1, h2, h3]
    | false => simp [chatAI, hraw, hdec, hstruct, chatDispatch, h1, h2, h3]

/-- Concrete instances of the degraded-reply theorem: a thrown call, empty
text, unparseable text, a decoded bare number, and an unrecognized
intent. -/
theorem chat_decode_failures_witness :
    chatAI (fun _ => none) none true ⟨none, none⟩ =
      (⟨500, .str apologyMsg⟩, ⟨none, none⟩) ∧
    chatAI (fun _ => none) (some "") true ⟨none, none⟩ =
      (⟨200, .str emptyGenMsg⟩, ⟨none, none⟩) ∧
    chatAI (fun _ => none) (some "hello") true ⟨none, none⟩ =
      (⟨200, .str troubleMsg⟩, ⟨none, none⟩) ∧
    chatAI (fun _ => some (.num 3)) (some "hello") true ⟨none, none⟩ =
      (⟨200, .str processMsg⟩, ⟨none, none⟩) ∧
    chatAI (fun _ => some (.obj [("intent", .str "greet")])) (some "hello")
        false ⟨none, none⟩ = (⟨200, .str notUnderstoodMsg⟩, ⟨none, none⟩) :=
  ⟨((chat_decode_failures_degraded (fun _ => none) true ⟨none, none⟩).1).1,
   ((chat_decode_failures_degraded (fun _ => none) true ⟨none, none⟩).2.1).1,
   ((chat_decode_failures_degraded (fun _ => none) true ⟨none, none⟩).2.2.1
     "hello" (by decide) rfl).1,
   ((chat_decode_failures_degraded (fun _ => some (.num 3)) true ⟨none, none⟩).2.2.2.1
     "hello" (.num 3) (by decide) rfl rfl).1,
   ((chat_decode_failures_degraded (fun _ => some (.obj [("intent", .str "greet")]))
     false ⟨none, none⟩).2.2.2.2 "hello" (.obj [("intent", .str "greet")])
     (by decide) rfl rfl rfl rfl rfl).1⟩

/-- Concrete instance of the ledger invariant theorem: consuming 4 from a
lot of 10. -/
theorem stock_ops_preserve_ledger_invariant_witness :
    List.Forall₂ lotEvolves (listLots (some [⟨1, "2025-01-01", 10, []⟩]))
      ((listLots (opStep (.use 1 4 7) (some [⟨1, "2025-01-01", 10, []⟩]))).take
        (listLots (some [⟨1, "2025-01-01", 10, []⟩])).length) ∧
    ∀ x ∈ (listLots (opStep (.use 1 4 7) (some [⟨1, "2025-01-01", 10, []⟩]))).drop
        (listLots (some [⟨1, "2025-01-01", 10, []⟩])).length,
      0 < x.qty ∧ x.entry = [] :=
  stock_ops_preserve_ledger_invariant (.use 1 4 7) (some [⟨1, "2025-01-01", 10, []⟩])
